import Mathlib

/-! Verification of the ZBD Lightning backend (cashu/lightning/zbd.py):
a shallow embedding of the exchange-rate cache and its fetch-or-reuse
algorithm, the USD-cents-to-millisatoshi conversion, the invoice status
mapping, invoice creation, the melt gating, and the webhook stream
preconditions, with theorems settling the specification's claims.

Remote HTTP calls are abstracted as explicit parameters describing the
outcome the call would produce (success with parsed fields, or failure
with an exception message); Python float arithmetic is modelled as exact
rational arithmetic, and Python time.time() as a rational parameter. -/

set_option linter.unusedVariables false

namespace ZBD

/-- Canonical payment outcome (PaymentResult in cashu.lightning.base). -/
inductive PaymentResult where
  | SETTLED
  | FAILED
  | PENDING
  | UNKNOWN
deriving DecidableEq, Repr

/-- Currency units relevant to this backend (Unit in cashu.core.base). -/
inductive Unit where
  | sat
  | usd
  | eur
  | msat
deriving DecidableEq, Repr

/-- Amount: a currency unit together with an integer quantity
(satoshis for sat, cents for usd). -/
structure Amount where
  unit : Unit
  amount : ℤ
deriving DecidableEq, Repr

/-- ZBDWallet.supported_units, the set holding Unit.sat and Unit.usd. -/
def supported_units : List Unit := [Unit.sat, Unit.usd]

/-- Python int() applied to a real-valued expression: truncation toward
zero (floor for non-negative values, ceiling for negative ones). -/
def pyInt (q : ℚ) : ℤ := if 0 ≤ q then ⌊q⌋ else ⌈q⌉

/-- ZBDWallet.cents_to_msats (src/cashu/lightning/zbd.py lines 181-197):
dollars = cents / 100; btc = dollars / btc_usd_rate;
sats = btc * 100_000_000; msats = int(sats * 1000).
The float divisions are modelled as exact rational divisions; at the
inputs evaluated below the exact value is more than 1/4 away from every
integer, so IEEE-754 double rounding (relative error about 1e-16) cannot
change the truncated result. -/
def cents_to_msats (cents : ℤ) (btc_usd_rate : ℚ) : ℤ :=
  pyInt ((cents : ℚ) / 100 / btc_usd_rate * 100000000 * 1000)

/-- The ceiling variant of the conversion that the repository's own
tests assert and that scripts/test_zbd_usd_integration.py implements:
sats_rounded = math.ceil(sats); msats = sats_rounded * 1000. -/
def cents_to_msats_ceil (cents : ℤ) (btc_usd_rate : ℚ) : ℤ :=
  ⌈(cents : ℚ) / 100 / btc_usd_rate * 100000000⌉ * 1000

/-- INVOICE_STATUS_MAP (src/cashu/lightning/zbd.py lines 35-40),
as an association list. -/
def INVOICE_STATUS_MAP : List (String × PaymentResult) :=
  [("pending", PaymentResult.PENDING),
   ("completed", PaymentResult.SETTLED),
   ("expired", PaymentResult.FAILED),
   ("error", PaymentResult.FAILED)]

/-- INVOICE_STATUS_MAP.get(status, PaymentResult.UNKNOWN). -/
def statusMapGet (status : String) : PaymentResult :=
  (INVOICE_STATUS_MAP.lookup status).getD PaymentResult.UNKNOWN

/-- PaymentStatus: canonical result plus optional diagnostic message. -/
structure PaymentStatus where
  result : PaymentResult
  error_message : Option String
deriving DecidableEq, Repr

/-- ZBDWallet.get_invoice_status (src/cashu/lightning/zbd.py lines
274-296), with the charge-status HTTP call abstracted as a parameter:
Except.error e is any exception raised by the call (network error or
non-2xx via raise_for_status), Except.ok status? is a 2xx response whose
data object carries the optional "status" field; a missing field
defaults to "pending" (data.get("status", "pending")). -/
def get_invoice_status (fetch : Except String (Option String)) : PaymentStatus :=
  match fetch with
  | Except.ok status? =>
    { result := statusMapGet (status?.getD "pending"), error_message := none }
  | Except.error e =>
    { result := PaymentResult.UNKNOWN,
      error_message := some ("ZBD get_invoice_status failed: " ++ e) }

/-- RATE_CACHE_TTL_SECONDS = 300 (5 minutes). -/
def RATE_CACHE_TTL_SECONDS : ℚ := 300

/-- RATE_CIRCUIT_BREAKER_TTL_SECONDS = 900 (15 minutes). -/
def RATE_CIRCUIT_BREAKER_TTL_SECONDS : ℚ := 900

/-- CachedRate: a BTC/USD rate with the unix timestamp of its fetch. -/
structure CachedRate where
  rate : ℚ
  timestamp : ℚ
deriving DecidableEq, Repr

/-- CachedRate.is_fresh: time.time() - timestamp < RATE_CACHE_TTL_SECONDS,
with time.time() passed explicitly as now. -/
def CachedRate.is_fresh (c : CachedRate) (now : ℚ) : Bool :=
  decide (now - c.timestamp < RATE_CACHE_TTL_SECONDS)

/-- CachedRate.is_usable: time.time() - timestamp <
RATE_CIRCUIT_BREAKER_TTL_SECONDS. -/
def CachedRate.is_usable (c : CachedRate) (now : ℚ) : Bool :=
  decide (now - c.timestamp < RATE_CIRCUIT_BREAKER_TTL_SECONDS)

/-- Outcome of the GET /v1/btcusd call as seen by get_exchange_rate:
ok carries float(data.get("btcUsdPrice", 0)) from a 2xx response (a
missing field parses as 0); err is any exception before the parse
(network error, non-2xx via raise_for_status, or a json/float parse
failure), carrying the exception message. -/
inductive FetchResult where
  | ok (btcUsdPrice : ℚ)
  | err (msg : String)
deriving DecidableEq, Repr

/-- The exception message the except-branch of get_exchange_rate sees:
for a fetch that parsed a non-positive rate it is the ValueError text
raised at line 167; for a transport failure it is that failure's text. -/
def FetchResult.cause : FetchResult → String
  | FetchResult.ok _ => "Invalid exchange rate received from ZBD"
  | FetchResult.err msg => msg

/-- A fetch outcome that sends get_exchange_rate into its except branch:
a transport failure, or a parsed rate ≤ 0. -/
def fetchFails : FetchResult → Bool
  | FetchResult.ok rate => decide (rate ≤ 0)
  | FetchResult.err _ => true

/-- Result of a get_exchange_rate call: the returned rate, or the
RuntimeError it raises. -/
inductive RateResult where
  | ok (rate : ℚ)
  | rateUnavailable (msg : String)
deriving DecidableEq, Repr

/-- A get_exchange_rate call observed in full: its result, the
class-level _rate_cache after the call, and whether the remote rate
endpoint was called. -/
structure RateCallOutcome where
  result : RateResult
  cache : Option CachedRate
  fetched : Bool
deriving DecidableEq, Repr

/-- The except-branch of get_exchange_rate (lines 173-179): fall back to
a stale-but-usable cached rate, else raise RuntimeError with the cause. -/
def rateFallback (cache : Option CachedRate) (now : ℚ) (msg : String) : RateResult :=
  match cache with
  | some c =>
    if c.is_usable now then RateResult.ok c.rate else RateResult.rateUnavailable msg
  | none => RateResult.rateUnavailable msg

/-- The try-branch of get_exchange_rate (lines 159-179): parse the
fetched rate, reject a non-positive one into the except branch, store a
valid rate in the cache with the current time and return it. -/
def rateAttempt (cache : Option CachedRate) (now : ℚ) (fetch : FetchResult) : RateCallOutcome :=
  match fetch with
  | FetchResult.ok rate =>
    if rate ≤ 0 then
      { result := rateFallback cache now
          ("Failed to fetch exchange rate from ZBD: " ++ (FetchResult.ok rate).cause),
        cache := cache, fetched := true }
    else
      { result := RateResult.ok rate,
        cache := some { rate := rate, timestamp := now }, fetched := true }
  | FetchResult.err msg =>
    { result := rateFallback cache now
        ("Failed to fetch exchange rate from ZBD: " ++ (FetchResult.err msg).cause),
      cache := cache, fetched := true }

/-- ZBDWallet.get_exchange_rate (lines 141-179): return a fresh cached
rate without fetching, otherwise attempt the live fetch with the
circuit-breaker fallback. -/
def get_exchange_rate (cache : Option CachedRate) (now : ℚ) (fetch : FetchResult) : RateCallOutcome :=
  match cache with
  | some c =>
    if c.is_fresh now then
      { result := RateResult.ok c.rate, cache := cache, fetched := false }
    else rateAttempt cache now fetch
  | none => rateAttempt cache now fetch

/-- Freshness of the whole cache slot: false when empty. -/
def cacheIsFresh : Option CachedRate → ℚ → Bool
  | some c, now => c.is_fresh now
  | none, _ => false

/-- Python exceptions that ZBDWallet methods raise to their caller:
Unsupported (a cashu error subclass) and RuntimeError. -/
inductive PyError where
  | unsupported (msg : String)
  | runtimeError (msg : String)
deriving DecidableEq, Repr

/-- StatusResponse: optional diagnostic message plus balance amount. -/
structure StatusResponse where
  error_message : Option String
  balance : Amount
deriving DecidableEq, Repr

/-- ZBDWallet.status (lines 116-139), with the GET /v1/wallet call
abstracted: Except.error e is any exception from the call or response
handling; Except.ok balance? is a 2xx response with the optional
data.balance field in millisatoshis (missing defaults to 0). Python
floor division by 1000 is Int.fdiv. -/
def status (fetch : Except String (Option ℤ)) : StatusResponse :=
  match fetch with
  | Except.ok balance? =>
    { error_message := none,
      balance := { unit := Unit.sat, amount := Int.fdiv (balance?.getD 0) 1000 } }
  | Except.error e =>
    { error_message := some ("ZBD status check failed: " ++ e),
      balance := { unit := Unit.sat, amount := 0 } }

/-- InvoiceResponse as returned by create_invoice. -/
structure InvoiceResponse where
  ok : Bool
  checking_id : Option String
  payment_request : Option String
  error_message : Option String
deriving DecidableEq, Repr

/-- Failure of the POST /v1/charges call: an httpx.HTTPStatusError from
raise_for_status (carrying e.response.text) or any other exception. -/
inductive ChargeError where
  | httpStatus (response_text : String)
  | other (msg : String)
deriving DecidableEq, Repr

/-- The text interpolated into the create_invoice error message. -/
def ChargeError.text : ChargeError → String
  | ChargeError.httpStatus t => t
  | ChargeError.other m => m

/-- A 2xx charge-creation response: the optional data.id and
data.invoice.request fields (data.get returns None when absent). -/
structure ChargeData where
  id : Option String
  request : Option String
deriving DecidableEq, Repr

/-- The POST /v1/charges step of create_invoice (lines 253-272):
amount_msats is the payload amount; on success the response fields are
copied as is, on failure a not-ok response carries the diagnostic. -/
def chargeStep (amount_msats : ℤ) (charge : Except ChargeError ChargeData) : InvoiceResponse :=
  match charge with
  | Except.ok data =>
    { ok := true, checking_id := data.id, payment_request := data.request,
      error_message := none }
  | Except.error e =>
    { ok := false, checking_id := none, payment_request := none,
      error_message := some ("ZBD create_invoice failed: " ++ e.text) }

/-- ZBDWallet.create_invoice (lines 199-272): assert the unit (the
assert_unit_supported of the base class raises Unsupported for a unit
outside supported_units), convert sat amounts by * 1000, resolve the
rate and convert usd cents via cents_to_msats, turn a RuntimeError from
get_exchange_rate into a not-ok response, then run the charge call. -/
def create_invoice (amount : Amount) (cache : Option CachedRate) (now : ℚ)
    (rateFetch : FetchResult) (charge : Except ChargeError ChargeData) :
    Except PyError InvoiceResponse :=
  if amount.unit ∈ supported_units then
    match amount.unit with
    | Unit.sat => Except.ok (chargeStep (amount.amount * 1000) charge)
    | Unit.usd =>
      match (get_exchange_rate cache now rateFetch).result with
      | RateResult.ok rate =>
        Except.ok (chargeStep (cents_to_msats amount.amount rate) charge)
      | RateResult.rateUnavailable m =>
        Except.ok { ok := false, checking_id := none, payment_request := none,
                    error_message := some ("Exchange rate error: " ++ m) }
    | _ =>
      Except.ok { ok := false, checking_id := none, payment_request := none,
                  error_message := some "Unsupported unit" }
  else Except.error (PyError.unsupported "Unit is not supported")

/-- MeltQuote (cashu.core.base), as far as pay_invoice can see it. -/
structure MeltQuote where
  quote : String
  request : String
  fee_reserve : ℤ
deriving DecidableEq, Repr

/-- PostMeltQuoteRequest (cashu.core.models). -/
structure PostMeltQuoteRequest where
  unit : String
  request : String
deriving DecidableEq, Repr

/-- PaymentResponse (cashu.lightning.base), never constructed here. -/
structure PaymentResponse where
  result : PaymentResult
  checking_id : Option String
  error_message : Option String
deriving DecidableEq, Repr

/-- PaymentQuoteResponse (cashu.lightning.base), never constructed here. -/
structure PaymentQuoteResponse where
  checking_id : String
  amount : ℤ
  fee : ℤ
deriving DecidableEq, Repr

/-- ZBDWallet.pay_invoice (lines 298-313): raises Unsupported
unconditionally. The triple records the raised error, the rate cache
after the call (unchanged) and how many remote calls were made (zero). -/
def pay_invoice (quote : MeltQuote) (fee_limit_msat : ℤ) (cache : Option CachedRate) :
    (Except PyError PaymentResponse) × Option CachedRate × ℕ :=
  (Except.error (PyError.unsupported "Melt (pay_invoice) is disabled for ZBDWallet"),
   cache, 0)

/-- ZBDWallet.get_payment_status (lines 315-326): raises Unsupported
unconditionally, no state change, no remote call. -/
def get_payment_status (checking_id : String) (cache : Option CachedRate) :
    (Except PyError PaymentStatus) × Option CachedRate × ℕ :=
  (Except.error (PyError.unsupported "Melt (get_payment_status) is disabled for ZBDWallet"),
   cache, 0)

/-- ZBDWallet.get_payment_quote (lines 328-341): raises Unsupported
unconditionally, no state change, no remote call. -/
def get_payment_quote (melt_quote : PostMeltQuoteRequest) (cache : Option CachedRate) :
    (Except PyError PaymentQuoteResponse) × Option CachedRate × ℕ :=
  (Except.error (PyError.unsupported "Melt (get_payment_quote) is disabled for ZBDWallet"),
   cache, 0)

/-- Result of starting paid_invoices_stream (lines 343-374), up to the
subscribe call: configError is the RuntimeError raised by a failed
precondition check, subscribed records the connection URL and the fixed
topic of the pubsub.subscribe call. -/
inductive StreamSetup where
  | configError (msg : String)
  | subscribed (redis_url : String) (topic : String)
deriving DecidableEq, Repr

/-- ZBDWallet.paid_invoices_stream precondition checks: first the
redis package load (redis_available models its success), then the MINT_REDIS_URL
setting, where Python truthiness makes both None and the empty string
fail; only then connect and subscribe to "cashu:paid_invoices". -/
def paid_invoices_stream (redis_available : Bool) (mint_redis_url : Option String) : StreamSetup :=
  if redis_available then
    match mint_redis_url with
    | none =>
      StreamSetup.configError
        "MINT_REDIS_URL environment variable required for paid_invoices_stream"
    | some url =>
      if url = "" then
        StreamSetup.configError
          "MINT_REDIS_URL environment variable required for paid_invoices_stream"
      else StreamSetup.subscribed url "cashu:paid_invoices"
  else
    StreamSetup.configError
      "redis package required for paid_invoices_stream. Install with: pip install redis"

/-- C1: the spec (and the repository's own unit tests
test_cents_to_msats_rounds_up and test_cents_to_msats_divisible_by_1000)
require cents_to_msats to round up to the next whole satoshi, yielding a
multiple of 1000 msat and exactly 11000 msat for 1 cent at rate 96000.0;
the code instead truncates at millisatoshi precision and returns 10416
there, which is not a multiple of 1000 and underpays by 584 msat, while
the ceiling variant captured in the integration script returns 11000.
This evaluates the code at the failing input. -/
theorem cents_to_msats_truncation_bug :
    cents_to_msats 1 96000 = 10416 ∧
    cents_to_msats 1 96000 % 1000 = 416 ∧
    cents_to_msats 10 96000 = 104166 ∧
    cents_to_msats_ceil 1 96000 = 11000 ∧
    cents_to_msats 0 96000 = 0 := by
  have h : ⌈((1 : ℤ) : ℚ) / 100 / (96000 : ℚ) * 100000000⌉ = (11 : ℤ) := by
    rw [Int.ceil_eq_iff]
    norm_num
  refine ⟨?_, ?_, ?_, ?_, ?_⟩
  · norm_num [cents_to_msats, pyInt]
  · norm_num [cents_to_msats, pyInt]
  · norm_num [cents_to_msats, pyInt]
  · unfold cents_to_msats_ceil
    rw [h]
    norm_num
  · norm_num [cents_to_msats, pyInt]

/-- C10: a 2xx charge-status response whose data object lacks the
"status" field is classified as PENDING (the field defaults to the
string "pending"), not UNKNOWN. -/
theorem get_invoice_status_missing_status_defaults_pending :
    get_invoice_status (Except.ok none) =
      { result := PaymentResult.PENDING, error_message := none } := rfl

/-- C4: the provider-status mapping used by get_invoice_status is total
and never fails: "pending" maps to PENDING, "completed" to SETTLED,
"expired" to FAILED, "error" to FAILED, and every other string maps to
UNKNOWN. -/
theorem invoice_status_mapping_total :
    get_invoice_status (Except.ok (some "pending")) =
      { result := PaymentResult.PENDING, error_message := none } ∧
    get_invoice_status (Except.ok (some "completed")) =
      { result := PaymentResult.SETTLED, error_message := none } ∧
    get_invoice_status (Except.ok (some "expired")) =
      { result := PaymentResult.FAILED, error_message := none } ∧
    get_invoice_status (Except.ok (some "error")) =
      { result := PaymentResult.FAILED, error_message := none } ∧
    ∀ s : String, s ≠ "pending" → s ≠ "completed" → s ≠ "expired" → s ≠ "error" →
      get_invoice_status (Except.ok (some s)) =
        { result := PaymentResult.UNKNOWN, error_message := none } := by
  refine ⟨rfl, rfl, rfl, rfl, ?_⟩
  intro s h1 h2 h3 h4
  have e1 : (s == "pending") = false := beq_eq_false_iff_ne.mpr h1
  have e2 : (s == "completed") = false := beq_eq_false_iff_ne.mpr h2
  have e3 : (s == "expired") = false := beq_eq_false_iff_ne.mpr h3
  have e4 : (s == "error") = false := beq_eq_false_iff_ne.mpr h4
  simp [get_invoice_status, statusMapGet, INVOICE_STATUS_MAP, List.lookup, e1, e2, e3, e4]

/-- Witness for C4 at the concrete unrecognized status "some_new_status". -/
theorem invoice_status_mapping_total_witness :
    get_invoice_status (Except.ok (some "some_new_status")) =
      { result := PaymentResult.UNKNOWN, error_message := none } :=
  invoice_status_mapping_total.2.2.2.2 "some_new_status"
    (by decide) (by decide) (by decide) (by decide)

/-- Unfolding lemma: get_exchange_rate on an empty cache goes straight
to the fetch attempt. -/
theorem get_exchange_rate_none (now : ℚ) (fetch : FetchResult) :
    get_exchange_rate none now fetch = rateAttempt none now fetch := rfl

/-- Unfolding lemma: get_exchange_rate on a populated cache branches on
freshness. -/
theorem get_exchange_rate_some (c : CachedRate) (now : ℚ) (fetch : FetchResult) :
    get_exchange_rate (some c) now fetch =
      if c.is_fresh now then
        { result := RateResult.ok c.rate, cache := some c, fetched := false }
      else rateAttempt (some c) now fetch := rfl

/-- Unfolding lemma: the fetch attempt on a parsed rate. -/
theorem rateAttempt_ok (cache : Option CachedRate) (now rate : ℚ) :
    rateAttempt cache now (FetchResult.ok rate) =
      if rate ≤ 0 then
        { result := rateFallback cache now
            ("Failed to fetch exchange rate from ZBD: " ++ (FetchResult.ok rate).cause),
          cache := cache, fetched := true }
      else
        { result := RateResult.ok rate,
          cache := some { rate := rate, timestamp := now }, fetched := true } := rfl

/-- Unfolding lemma: the fetch attempt on a transport failure. -/
theorem rateAttempt_err (cache : Option CachedRate) (now : ℚ) (msg : String) :
    rateAttempt cache now (FetchResult.err msg) =
      { result := rateFallback cache now
          ("Failed to fetch exchange rate from ZBD: " ++ msg),
        cache := cache, fetched := true } := rfl

/-- On any failing fetch, the attempt answers with the fallback and
keeps the cache. -/
theorem rateAttempt_of_fails (cache : Option CachedRate) (now : ℚ)
    (fetch : FetchResult) (hfail : fetchFails fetch = true) :
    rateAttempt cache now fetch =
      { result := rateFallback cache now
          ("Failed to fetch exchange rate from ZBD: " ++ fetch.cause),
        cache := cache, fetched := true } := by
  cases fetch with
  | ok rate =>
    have hr : rate ≤ 0 := of_decide_eq_true hfail
    rw [rateAttempt_ok, if_pos hr]
  | err m => rfl

/-- C2: when the live fetch fails (transport error, non-2xx, or a
parsed rate ≤ 0), get_exchange_rate returns the cached rate whenever a
cached rate younger than 900 seconds exists, and otherwise (no cache, or
age at least 900 seconds) raises RuntimeError carrying the underlying
cause. -/
theorem get_exchange_rate_circuit_breaker (cache : Option CachedRate) (now : ℚ)
    (fetch : FetchResult) (hfail : fetchFails fetch = true) :
    (∀ c : CachedRate, cache = some c → now - c.timestamp < 900 →
      (get_exchange_rate cache now fetch).result = RateResult.ok c.rate) ∧
    ((∀ c : CachedRate, cache = some c → 900 ≤ now - c.timestamp) →
      (get_exchange_rate cache now fetch).result =
        RateResult.rateUnavailable
          ("Failed to fetch exchange rate from ZBD: " ++ fetch.cause)) := by
  constructor
  · intro c hc hage
    subst hc
    have husable : c.is_usable now = true := by
      simp only [CachedRate.is_usable, RATE_CIRCUIT_BREAKER_TTL_SECONDS, decide_eq_true_eq]
      exact hage
    rw [get_exchange_rate_some]
    by_cases hf : c.is_fresh now = true
    · rw [if_pos hf]
    · rw [if_neg hf, rateAttempt_of_fails _ _ _ hfail]
      show rateFallback (some c) now _ = _
      rw [rateFallback, if_pos husable]
  · intro hold
    cases cache with
    | none =>
      rw [get_exchange_rate_none, rateAttempt_of_fails _ _ _ hfail]
      rfl
    | some c =>
      have hage : 900 ≤ now - c.timestamp := hold c rfl
      have hf : ¬ c.is_fresh now = true := by
        simp only [CachedRate.is_fresh, RATE_CACHE_TTL_SECONDS, decide_eq_true_eq, not_lt]
        linarith
      have husable : ¬ c.is_usable now = true := by
        simp only [CachedRate.is_usable, RATE_CIRCUIT_BREAKER_TTL_SECONDS, decide_eq_true_eq,
          not_lt]
        linarith
      rw [get_exchange_rate_some, if_neg hf, rateAttempt_of_fails _ _ _ hfail]
      show rateFallback (some c) now _ = _
      rw [rateFallback, if_neg husable]

/-- Witness for C2: a cached rate aged 360 seconds is returned when the
remote fetch fails. -/
theorem get_exchange_rate_circuit_breaker_witness :
    (get_exchange_rate (some { rate := 99000, timestamp := 0 }) 360
        (FetchResult.err "API unavailable")).result = RateResult.ok 99000 :=
  (get_exchange_rate_circuit_breaker
      (some { rate := 99000, timestamp := 0 }) 360 (FetchResult.err "API unavailable")
      rfl).1 { rate := 99000, timestamp := 0 } rfl (by norm_num)

/-- C3: a cached rate younger than 300 seconds is returned as is, with
no remote call and the cache untouched; consequently a call on an empty
cache that fetches a positive rate followed by a second call within the
fresh window performs exactly one remote fetch between them. -/
theorem get_exchange_rate_fresh_cache_no_fetch :
    (∀ (c : CachedRate) (now : ℚ) (fetch : FetchResult), now - c.timestamp < 300 →
      get_exchange_rate (some c) now fetch =
        { result := RateResult.ok c.rate, cache := some c, fetched := false }) ∧
    (∀ (t0 t1 r : ℚ) (fetch2 : FetchResult), 0 < r → t1 - t0 < 300 →
      (get_exchange_rate none t0 (FetchResult.ok r)).fetched = true ∧
      (get_exchange_rate (get_exchange_rate none t0 (FetchResult.ok r)).cache t1
          fetch2).fetched = false) := by
  have hfresh : ∀ (c : CachedRate) (now : ℚ), now - c.timestamp < 300 →
      c.is_fresh now = true := by
    intro c now h
    simp only [CachedRate.is_fresh, RATE_CACHE_TTL_SECONDS, decide_eq_true_eq]
    exact h
  have hfirst : ∀ (c : CachedRate) (now : ℚ) (fetch : FetchResult),
      now - c.timestamp < 300 →
      get_exchange_rate (some c) now fetch =
        { result := RateResult.ok c.rate, cache := some c, fetched := false } := by
    intro c now fetch h
    rw [get_exchange_rate_some, if_pos (hfresh c now h)]
  refine ⟨hfirst, ?_⟩
  intro t0 t1 r fetch2 hr hwin
  have hnotle : ¬ r ≤ 0 := not_le.mpr hr
  have hcall1 : get_exchange_rate none t0 (FetchResult.ok r) =
      { result := RateResult.ok r,
        cache := some { rate := r, timestamp := t0 }, fetched := true } := by
    rw [get_exchange_rate_none, rateAttempt_ok, if_neg hnotle]
  have hcache : (get_exchange_rate none t0 (FetchResult.ok r)).cache =
      some { rate := r, timestamp := t0 } := by rw [hcall1]
  refine ⟨by rw [hcall1], ?_⟩
  rw [hcache, hfirst { rate := r, timestamp := t0 } t1 fetch2 hwin]

/-- Witness for C3: a call at time 0 on an empty cache with fetched rate
96000, then a second call at time 100: the first fetches, the second
does not. -/
theorem get_exchange_rate_fresh_cache_no_fetch_witness :
    (get_exchange_rate none 0 (FetchResult.ok 96000)).fetched = true ∧
    (get_exchange_rate (get_exchange_rate none 0 (FetchResult.ok 96000)).cache 100
        (FetchResult.err "down")).fetched = false :=
  get_exchange_rate_fresh_cache_no_fetch.2 0 100 96000 (FetchResult.err "down")
    (by norm_num) (by norm_num)

/-- C9: the class-level rate cache is replaced (with the fetched rate
and the current time) exactly when a live fetch returns a positive rate
and the cache was not fresh; on the fresh-hit path, the stale-fallback
path and the RateUnavailable path the cache is returned unchanged. -/
theorem get_exchange_rate_cache_frame (cache : Option CachedRate) (now : ℚ)
    (fetch : FetchResult) :
    (∀ r : ℚ, fetch = FetchResult.ok r → 0 < r → cacheIsFresh cache now = false →
      (get_exchange_rate cache now fetch).cache = some { rate := r, timestamp := now }) ∧
    (fetchFails fetch = true ∨ cacheIsFresh cache now = true →
      (get_exchange_rate cache now fetch).cache = cache) := by
  constructor
  · intro r hfetch hr hnotfresh
    subst hfetch
    have hnotle : ¬ r ≤ 0 := not_le.mpr hr
    cases cache with
    | none =>
      rw [get_exchange_rate_none, rateAttempt_ok, if_neg hnotle]
    | some c =>
      have hf : ¬ c.is_fresh now = true := by
        intro h
        rw [show cacheIsFresh (some c) now = c.is_fresh now from rfl, h] at hnotfresh
        exact absurd hnotfresh (by simp)
      rw [get_exchange_rate_some, if_neg hf, rateAttempt_ok, if_neg hnotle]
  · intro hkeep
    cases hkeep with
    | inl hfail =>
      cases cache with
      | none =>
        rw [get_exchange_rate_none, rateAttempt_of_fails _ _ _ hfail]
      | some c =>
        by_cases hf : c.is_fresh now = true
        · rw [get_exchange_rate_some, if_pos hf]
        · rw [get_exchange_rate_some, if_neg hf, rateAttempt_of_fails _ _ _ hfail]
    | inr hfresh =>
      cases cache with
      | none => exact absurd hfresh (by simp [cacheIsFresh])
      | some c =>
        have hf : c.is_fresh now = true := hfresh
        rw [get_exchange_rate_some, if_pos hf]

/-- Witness for C9: a fetch of rate 5 at time 0 on an empty cache stores
that rate with timestamp 0. -/
theorem get_exchange_rate_cache_frame_witness :
    (get_exchange_rate none 0 (FetchResult.ok 5)).cache =
      some { rate := 5, timestamp := 0 } :=
  (get_exchange_rate_cache_frame none 0 (FetchResult.ok 5)).1 5 rfl (by norm_num) rfl

/-- A string with a nonempty left part is nonempty. -/
theorem append_left_ne_empty (s t : String) (h : s.length ≠ 0) : s ++ t ≠ "" := by
  intro he
  apply h
  have hlen := congrArg String.length he
  rw [String.length_append, String.length_empty] at hlen
  omega

/-- Unfolding lemma: create_invoice on a sat amount. -/
theorem create_invoice_sat (n : ℤ) (cache : Option CachedRate) (now : ℚ)
    (rateFetch : FetchResult) (charge : Except ChargeError ChargeData) :
    create_invoice { unit := Unit.sat, amount := n } cache now rateFetch charge =
      Except.ok (chargeStep (n * 1000) charge) := rfl

/-- Unfolding lemma: create_invoice on a usd amount. -/
theorem create_invoice_usd (n : ℤ) (cache : Option CachedRate) (now : ℚ)
    (rateFetch : FetchResult) (charge : Except ChargeError ChargeData) :
    create_invoice { unit := Unit.usd, amount := n } cache now rateFetch charge =
      match (get_exchange_rate cache now rateFetch).result with
      | RateResult.ok rate => Except.ok (chargeStep (cents_to_msats n rate) charge)
      | RateResult.rateUnavailable m =>
        Except.ok { ok := false, checking_id := none, payment_request := none,
                    error_message := some ("Exchange rate error: " ++ m) } := rfl

/-- A failing charge call produces a not-ok response with a nonempty
diagnostic. -/
theorem chargeStep_error (amount_msats : ℤ) (ce : ChargeError) :
    chargeStep amount_msats (Except.error ce) =
      { ok := false, checking_id := none, payment_request := none,
        error_message := some ("ZBD create_invoice failed: " ++ ce.text) } := rfl

/-- C5: pay_invoice, get_payment_status and get_payment_quote raise
Unsupported on every input, every configuration and every cache state,
with the cache unchanged and zero remote calls. -/
theorem melt_operations_always_unsupported :
    (∀ (quote : MeltQuote) (fee_limit_msat : ℤ) (cache : Option CachedRate),
      pay_invoice quote fee_limit_msat cache =
        (Except.error (PyError.unsupported "Melt (pay_invoice) is disabled for ZBDWallet"),
         cache, 0)) ∧
    (∀ (checking_id : String) (cache : Option CachedRate),
      get_payment_status checking_id cache =
        (Except.error
           (PyError.unsupported "Melt (get_payment_status) is disabled for ZBDWallet"),
         cache, 0)) ∧
    (∀ (melt_quote : PostMeltQuoteRequest) (cache : Option CachedRate),
      get_payment_quote melt_quote cache =
        (Except.error
           (PyError.unsupported "Melt (get_payment_quote) is disabled for ZBDWallet"),
         cache, 0)) :=
  ⟨fun _ _ _ => rfl, fun _ _ => rfl, fun _ _ => rfl⟩

/-- C6: a remote failure never escapes as an exception: status degrades
to a zero sat balance with a diagnostic, get_invoice_status to UNKNOWN
with a diagnostic, and create_invoice (on a supported unit) returns a
response with ok = false and a nonempty error_message. -/
theorem remote_failures_never_propagate (e : String) :
    status (Except.error e) =
      { error_message := some ("ZBD status check failed: " ++ e),
        balance := { unit := Unit.sat, amount := 0 } } ∧
    get_invoice_status (Except.error e) =
      { result := PaymentResult.UNKNOWN,
        error_message := some ("ZBD get_invoice_status failed: " ++ e) } ∧
    (∀ (amount : Amount) (cache : Option CachedRate) (now : ℚ)
       (rateFetch : FetchResult) (ce : ChargeError),
      amount.unit ∈ supported_units →
      ∃ resp : InvoiceResponse,
        create_invoice amount cache now rateFetch (Except.error ce) = Except.ok resp ∧
        resp.ok = false ∧ ∃ m : String, resp.error_message = some m ∧ m ≠ "") := by
  refine ⟨rfl, rfl, ?_⟩
  intro amount cache now rateFetch ce hmem
  obtain ⟨u, n⟩ := amount
  cases u with
  | sat =>
    refine ⟨chargeStep (n * 1000) (Except.error ce), create_invoice_sat n cache now rateFetch _,
      rfl, "ZBD create_invoice failed: " ++ ce.text, rfl, ?_⟩
    exact append_left_ne_empty _ _ (by decide)
  | usd =>
    rw [create_invoice_usd]
    cases hres : (get_exchange_rate cache now rateFetch).result with
    | ok rate =>
      refine ⟨chargeStep (cents_to_msats n rate) (Except.error ce), rfl,
        rfl, "ZBD create_invoice failed: " ++ ce.text, rfl, ?_⟩
      exact append_left_ne_empty _ _ (by decide)
    | rateUnavailable m =>
      refine ⟨_, rfl, rfl, "Exchange rate error: " ++ m, rfl, ?_⟩
      exact append_left_ne_empty _ _ (by decide)
  | eur => simp [supported_units] at hmem
  | msat => simp [supported_units] at hmem

/-- Witness for C6: a network error on charge creation yields ok = false
with a nonempty diagnostic. -/
theorem remote_failures_never_propagate_witness :
    ∃ resp : InvoiceResponse,
      create_invoice { unit := Unit.sat, amount := 1000 } none 0 (FetchResult.err "x")
          (Except.error (ChargeError.other "Network error")) = Except.ok resp ∧
      resp.ok = false ∧ ∃ m : String, resp.error_message = some m ∧ m ≠ "" :=
  (remote_failures_never_propagate "Network error").2.2
    { unit := Unit.sat, amount := 1000 } none 0 (FetchResult.err "x")
    (ChargeError.other "Network error") (by decide)

/-- C7 counterexample: a 2xx charge response whose data object lacks
the id and invoice.request fields yields ok = true with checking_id and
payment_request both absent, refuting the claim that the ok branch
always populates them. -/
theorem create_invoice_exclusive_groups_counterexample :
    ∃ resp : InvoiceResponse,
      create_invoice { unit := Unit.sat, amount := 1000 } none 0
          (FetchResult.err "unused") (Except.ok { id := none, request := none }) =
        Except.ok resp ∧
      resp.ok = true ∧ resp.checking_id = none ∧ resp.payment_request = none :=
  ⟨{ ok := true, checking_id := none, payment_request := none, error_message := none },
   rfl, rfl, rfl, rfl⟩

/-- C7 as amended: on the ok = true branch error_message is absent and
checking_id and payment_request are exactly the provider response's id
and invoice.request fields (absent whenever the provider omits them);
on the ok = false branch checking_id and payment_request are absent and
error_message is populated and nonempty. -/
theorem create_invoice_branch_population (amount : Amount) (cache : Option CachedRate)
    (now : ℚ) (rateFetch : FetchResult) (charge : Except ChargeError ChargeData)
    (resp : InvoiceResponse)
    (h : create_invoice amount cache now rateFetch charge = Except.ok resp) :
    (resp.ok = true → resp.error_message = none ∧
      ∃ data : ChargeData, charge = Except.ok data ∧
        resp.checking_id = data.id ∧ resp.payment_request = data.request) ∧
    (resp.ok = false → resp.checking_id = none ∧ resp.payment_request = none ∧
      ∃ m : String, resp.error_message = some m ∧ m ≠ "") := by
  have hcharge : ∀ msats : ℤ, chargeStep msats charge = resp →
      (resp.ok = true → resp.error_message = none ∧
        ∃ data : ChargeData, charge = Except.ok data ∧
          resp.checking_id = data.id ∧ resp.payment_request = data.request) ∧
      (resp.ok = false → resp.checking_id = none ∧ resp.payment_request = none ∧
        ∃ m : String, resp.error_message = some m ∧ m ≠ "") := by
    intro msats hresp
    cases charge with
    | ok data =>
      subst hresp
      exact ⟨fun _ => ⟨rfl, data, rfl, rfl, rfl⟩, fun hfalse => by simp [chargeStep] at hfalse⟩
    | error ce =>
      subst hresp
      refine ⟨fun htrue => by simp [chargeStep] at htrue,
        fun _ => ⟨rfl, rfl, "ZBD create_invoice failed: " ++ ce.text, rfl, ?_⟩⟩
      exact append_left_ne_empty _ _ (by decide)
  obtain ⟨u, n⟩ := amount
  cases u with
  | sat =>
    rw [create_invoice_sat] at h
    injection h with h2
    exact hcharge (n * 1000) h2
  | usd =>
    rw [create_invoice_usd] at h
    cases hres : (get_exchange_rate cache now rateFetch).result with
    | ok rate =>
      rw [hres] at h
      injection h with h2
      exact hcharge (cents_to_msats n rate) h2
    | rateUnavailable m =>
      rw [hres] at h
      injection h with h2
      subst h2
      refine ⟨fun htrue => by simp at htrue,
        fun _ => ⟨rfl, rfl, "Exchange rate error: " ++ m, rfl, ?_⟩⟩
      exact append_left_ne_empty _ _ (by decide)
  | eur => simp [create_invoice, supported_units] at h
  | msat => simp [create_invoice, supported_units] at h

/-- Witness for C7 as amended, at a concrete failing charge call. -/
theorem create_invoice_branch_population_witness :
    (({ ok := false, checking_id := none, payment_request := none,
        error_message := some "ZBD create_invoice failed: boom" } : InvoiceResponse).ok = true →
      ({ ok := false, checking_id := none, payment_request := none,
         error_message := some "ZBD create_invoice failed: boom" } : InvoiceResponse).error_message = none ∧
      ∃ data : ChargeData,
        (Except.error (ChargeError.other "boom") : Except ChargeError ChargeData) =
          Except.ok data ∧
        ({ ok := false, checking_id := none, payment_request := none,
           error_message := some "ZBD create_invoice failed: boom" } : InvoiceResponse).checking_id = data.id ∧
        ({ ok := false, checking_id := none, payment_request := none,
           error_message := some "ZBD create_invoice failed: boom" } : InvoiceResponse).payment_request = data.request) ∧
    (({ ok := false, checking_id := none, payment_request := none,
        error_message := some "ZBD create_invoice failed: boom" } : InvoiceResponse).ok = false →
      ({ ok := false, checking_id := none, payment_request := none,
         error_message := some "ZBD create_invoice failed: boom" } : InvoiceResponse).checking_id = none ∧
      ({ ok := false, checking_id := none, payment_request := none,
         error_message := some "ZBD create_invoice failed: boom" } : InvoiceResponse).payment_request = none ∧
      ∃ m : String,
        ({ ok := false, checking_id := none, payment_request := none,
           error_message := some "ZBD create_invoice failed: boom" } : InvoiceResponse).error_message = some m ∧
        m ≠ "") :=
  create_invoice_branch_population { unit := Unit.sat, amount := 5 } none 0
    (FetchResult.err "x") (Except.error (ChargeError.other "boom"))
    { ok := false, checking_id := none, payment_request := none,
      error_message := some "ZBD create_invoice failed: boom" } (by rfl)

/-- C8: paid_invoices_stream fails fast with a distinct configuration
error when the redis package is unavailable or when MINT_REDIS_URL is
unset (or empty, by Python truthiness), and only when both preconditions
hold does it subscribe, to the fixed topic "cashu:paid_invoices". -/
theorem paid_invoices_stream_preconditions (redis_available : Bool)
    (mint_redis_url : Option String) :
    (redis_available = false →
      paid_invoices_stream redis_available mint_redis_url =
        StreamSetup.configError
          "redis package required for paid_invoices_stream. Install with: pip install redis") ∧
    (redis_available = true → (mint_redis_url = none ∨ mint_redis_url = some "") →
      paid_invoices_stream redis_available mint_redis_url =
        StreamSetup.configError
          "MINT_REDIS_URL environment variable required for paid_invoices_stream") ∧
    (∀ url : String, redis_available = true → mint_redis_url = some url → url ≠ "" →
      paid_invoices_stream redis_available mint_redis_url =
        StreamSetup.subscribed url "cashu:paid_invoices") := by
  refine ⟨?_, ?_, ?_⟩
  · intro hfalse
    subst hfalse
    rfl
  · intro htrue hurl
    subst htrue
    cases hurl with
    | inl hnone => subst hnone; rfl
    | inr hempty => subst hempty; rfl
  · intro url htrue hsome hne
    subst htrue
    subst hsome
    show (if url = "" then _ else _) = _
    rw [if_neg hne]

/-- Witness for C8: with redis available and a configured URL, the
stream subscribes to the fixed topic. -/
theorem paid_invoices_stream_preconditions_witness :
    paid_invoices_stream true (some "redis://localhost:6379") =
      StreamSetup.subscribed "redis://localhost:6379" "cashu:paid_invoices" :=
  (paid_invoices_stream_preconditions true (some "redis://localhost:6379")).2.2
    "redis://localhost:6379" rfl rfl (by decide)

end ZBD
